import Mathlib

/-!
Verification of the AdvisorDemand demand-signal fusion and scoring engine.

The definitions below are a shallow embedding of the Python services in
`src/services/` (`calculation_service.py`, `demand_scoring.py`,
`cache_manager.py`) and `src/lib/utils.py`.  Numeric code is modelled over
exact arithmetic (`ℚ`, with `ℝ` where a square root appears); the pandas
and numpy special values `NaN` and `inf` are modelled explicitly where a
property depends on them.
-/

namespace AdvisorDemand

/-- Python `round` to the nearest integer with banker's rounding
(round-half-to-even), the semantics of `round(x)` used throughout the
services when results are rounded. -/
def pyRoundInt (q : ℚ) : ℤ :=
  if q - ⌊q⌋ < 1/2 then ⌊q⌋
  else if (1:ℚ)/2 < q - ⌊q⌋ then ⌊q⌋ + 1
  else if ⌊q⌋ % 2 = 0 then ⌊q⌋ else ⌊q⌋ + 1

/-- Python `round(x, 0)` as a rational. -/
def pyRound0 (q : ℚ) : ℚ := (pyRoundInt q : ℚ)

/-- Python `round(x, 1)` as a rational. -/
def pyRound1 (q : ℚ) : ℚ := (pyRoundInt (q * 10) : ℚ) / 10

/-! ## Z-score engine

`DemandScoringService._z` (src/services/demand_scoring.py lines 20-24):

```
if series.std(ddof=0) == 0 or series.count() < 2:
    return pd.Series(np.zeros(len(series)), index=series.index)
return (series - series.mean()) / series.std(ddof=0)
```

The series is modelled as a `List ℚ` (the lists fed to `_z` contain no
NaN, so `series.count()` is the length).  `std(ddof=0)` is the population
standard deviation, the square root of the population variance; the
branch condition is stated on the variance, which is equivalent
(`popStd_eq_zero_iff` below) and keeps the condition decidable. -/

/-- Population mean of a series, `series.mean()`. -/
def popMean (xs : List ℚ) : ℚ := xs.sum / (xs.length : ℚ)

/-- Population variance of a series (`ddof=0`: divide by N, not N-1). -/
def popVar (xs : List ℚ) : ℚ :=
  (xs.map (fun x => (x - popMean xs) ^ 2)).sum / (xs.length : ℚ)

/-- Population standard deviation, `series.std(ddof=0)`. -/
noncomputable def popStd (xs : List ℚ) : ℝ := Real.sqrt ((popVar xs : ℚ) : ℝ)

/-- Embedding of `DemandScoringService._z`. -/
noncomputable def zscore (xs : List ℚ) : List ℝ :=
  if popVar xs = 0 ∨ xs.length < 2 then List.replicate xs.length 0
  else xs.map (fun (x : ℚ) => ((x : ℝ) - ((popMean xs : ℚ) : ℝ)) / popStd xs)

/-! ## Demand scoring (src/services/demand_scoring.py) -/

/-- The `DemandWeights` dataclass.  In the source every field has a
default (`0.30`, `0.25`, `0.25`, `0.20`); `defaultDemandWeights` below is
that default instance. -/
structure DemandWeights where
  bfs_apps_yoy : ℚ
  licenses_per_1k : ℚ
  rfps_per_1k : ℚ
  qcew_emp_yoy : ℚ

/-- The default `DemandWeights()` instance. -/
def defaultDemandWeights : DemandWeights := ⟨3/10, 1/4, 1/4, 1/5⟩

/-- Per-1k normalization used for license and RFP counts
(demand_scoring.py lines 93-94):
`np.where(df["establishments"]>0, 1000*cnt/df["establishments"], 0.0)`. -/
def ratePer1k (cnt establishments : ℚ) : ℚ :=
  if 0 < establishments then 1000 * cnt / establishments else 0

/-- One row of the merged per-NAICS signal frame (demand_scoring.py line
90, after the three joins and `fillna(0.0)`), restricted to the columns
the demand score reads.  `apps_yoy` is the finite (post-`fillna`) value;
the infinite value that `pct_change` can produce is treated separately
with `FVal` below. -/
structure SignalRow where
  establishments : ℚ
  apps_yoy : ℚ
  license_cnt : ℚ
  rfp_cnt : ℚ

/-- The `demand_score` column (demand_scoring.py lines 92-106): the three
signal columns are z-scored across the rows and combined as the plain
weighted sum
`w.bfs_apps_yoy * z_apps_yoy + w.licenses_per_1k * z_licenses_1k + w.rfps_per_1k * z_rfps_1k`. -/
noncomputable def demandScores (w : DemandWeights) (rows : List SignalRow) : List ℝ :=
  ((zscore (rows.map SignalRow.apps_yoy)).zip
    ((zscore (rows.map (fun r => ratePer1k r.license_cnt r.establishments))).zip
      (zscore (rows.map (fun r => ratePer1k r.rfp_cnt r.establishments))))).map (fun p =>
    (w.bfs_apps_yoy : ℝ) * p.1 + (w.licenses_per_1k : ℝ) * p.2.1 +
      (w.rfps_per_1k : ℝ) * p.2.2)

/-- Modelled from the spec claim, for comparison with `demandScores`: the
composite score as the claim states it, the weighted sum of the
standardized signal values divided by the sum of the weights actually
used (here the three weights of the signals entering the sum). -/
noncomputable def demandScoresSpecClaim (w : DemandWeights) (rows : List SignalRow) : List ℝ :=
  ((zscore (rows.map SignalRow.apps_yoy)).zip
    ((zscore (rows.map (fun r => ratePer1k r.license_cnt r.establishments))).zip
      (zscore (rows.map (fun r => ratePer1k r.rfp_cnt r.establishments))))).map (fun p =>
    ((w.bfs_apps_yoy : ℝ) * p.1 + (w.licenses_per_1k : ℝ) * p.2.1 +
        (w.rfps_per_1k : ℝ) * p.2.2) /
      ((w.bfs_apps_yoy : ℝ) + (w.licenses_per_1k : ℝ) + (w.rfps_per_1k : ℝ)))

/-! ## Year-over-year signals and IEEE-style special values

`industry_scores` computes BFS applications year-over-year growth with
pandas `pct_change` (demand_scoring.py line 46) and later replaces NaN
with `fillna(0.0)` (line 90).  Floating-point division of a nonzero
numerator by zero yields a signed infinity, and `0/0` yields NaN, so the
value domain is modelled with an explicit carrier. -/

/-- A float cell value: finite rational, an infinity, or NaN. -/
inductive FVal where
  | nan : FVal
  | inf : FVal
  | neginf : FVal
  | val : ℚ → FVal
deriving DecidableEq

/-- One step of pandas `pct_change`: `current / previous - 1` under IEEE
division semantics. -/
def pctChangeStep (prev c : ℚ) : FVal :=
  if prev = 0 then
    (if c = 0 then FVal.nan else if 0 < c then FVal.inf else FVal.neginf)
  else FVal.val ((c - prev) / prev)

/-- Tail of `pct_change` given the previous value. -/
def pctChangeAux (prev : ℚ) : List ℚ → List FVal
  | [] => []
  | c :: rest => pctChangeStep prev c :: pctChangeAux c rest

/-- pandas `Series.pct_change` over a (year-sorted) group: the first
entry has no previous value and is NaN. -/
def pctChange (xs : List ℚ) : List FVal :=
  match xs with
  | [] => []
  | x :: rest => FVal.nan :: pctChangeAux x rest

/-- `fillna(0.0)` on one cell: replaces NaN, and only NaN. -/
def fillna0 (v : FVal) : FVal :=
  match v with
  | FVal.nan => FVal.val 0
  | v => v

/-- The `apps_yoy` signal a NAICS group contributes for its latest year
(demand_scoring.py lines 42-47 and 90): the last `pct_change` entry of
the year-sorted application counts, after `fillna(0.0)`. -/
def appsYoySignal (apps : List ℚ) : FVal :=
  fillna0 ((pctChange apps).getLast?.getD FVal.nan)

/-- Embedding of `DataUtils.calculate_growth_rate`
(src/lib/utils.py lines 105-112); `none` models both NaN inputs and the
`previous_value == 0` guard returning Python `None`. -/
def calculate_growth_rate (current_value previous_value : Option ℚ) : Option ℚ :=
  match current_value, previous_value with
  | some c, some p => if p = 0 then none else some (pyRound1 ((c - p) / p * 100))
  | _, _ => none

/-! ## Opportunity score (calculation_service.py lines 90-158)

Each of the five signal helpers (`_calculate_employment_growth`,
`_calculate_rfp_signal`, `_calculate_award_signal`,
`_calculate_formation_signal`, `_calculate_license_signal`) is run only
when its input frame is non-empty (for industry data: has more than one
row); the helper's numeric result is abstracted here as the payload of an
`Option ℚ` argument (`none` = frame empty, signal not appended). -/

/-- Result record of `calculate_opportunity_score` (the `signals` and
`components` entries of the returned dict are omitted; `components` is
recoverable as `scoreComponents` of the inputs). -/
structure OppResult where
  opportunity_score : Option ℚ
  methodology : String
  signals_count : ℕ

/-- One conditional `score_components.append((name, signal, weight))`. -/
def optComponent (name : String) (sig : Option ℚ) (weight : ℚ) :
    List (String × ℚ × ℚ) :=
  match sig with
  | some v => [(name, v, weight)]
  | none => []

/-- The `score_components` list built in lines 98-129, in source order
with the source weights 0.3, 0.25, 0.2, 0.15, 0.1. -/
def scoreComponents (emp rfp award formation license : Option ℚ) :
    List (String × ℚ × ℚ) :=
  optComponent "employment_growth" emp (3/10) ++
  optComponent "rfp_activity" rfp (1/4) ++
  optComponent "award_activity" award (1/5) ++
  optComponent "formation_activity" formation (3/20) ++
  optComponent "license_activity" license (1/10)

/-- `total_weight = sum(weight for _, _, weight in score_components)`. -/
def totalWeight (comps : List (String × ℚ × ℚ)) : ℚ :=
  (comps.map (fun c => c.2.2)).sum

/-- `weighted_score = sum(signal * weight for _, signal, weight in score_components)`. -/
def weightedScore (comps : List (String × ℚ × ℚ)) : ℚ :=
  (comps.map (fun c => c.2.1 * c.2.2)).sum

/-- Embedding of `CalculationService.calculate_opportunity_score`
(lines 131-148).  The returned dict entry is
`round(opportunity_score, 1) if opportunity_score else None`: a Python
truthiness test, falsy both for `None` and for a score of exactly `0.0`. -/
def calculate_opportunity_score (emp rfp award formation license : Option ℚ) :
    OppResult :=
  let comps := scoreComponents emp rfp award formation license
  if 2 ≤ comps.length then
    let s := weightedScore comps / totalWeight comps * 100
    { opportunity_score := if s = 0 then none else some (pyRound1 s)
      methodology := "Weighted average of " ++ toString comps.length ++ " signals"
      signals_count := comps.length }
  else
    { opportunity_score := none
      methodology := "Insufficient signals for composite score (minimum 2 required)"
      signals_count := comps.length }

/-! ## Market concentration (calculation_service.py lines 160-218) -/

/-- Result record of `calculate_market_concentration`.  `total_firms` is
`none` in the two degenerate branches, whose dicts carry no such key. -/
structure ConcentrationResult where
  hhi : ℚ
  top_4_concentration : ℚ
  effective_competitors : ℚ
  market_structure : String
  total_firms : Option ℕ
deriving DecidableEq

/-- `valid_data`: the rows whose metric value is present (`notna`) and
strictly positive (line 172).  A row's metric cell is an `Option ℚ`
(`none` = NaN). -/
def validValues (rows : List (Option ℚ)) : List ℚ :=
  (rows.filterMap id).filter (fun v => decide (0 < v))

/-- `market_shares = valid_data[metric] / total` (line 183). -/
def sharesOf (vals : List ℚ) : List ℚ := vals.map (fun v => v / vals.sum)

/-- `hhi = (market_shares ** 2).sum() * 10000` (line 186). -/
def hhiOf (vals : List ℚ) : ℚ :=
  ((sharesOf vals).map (fun s => s ^ 2)).sum * 10000

/-- Embedding of `CalculationService.calculate_market_concentration`.
`metricPresent` models `metric in industry_data.columns`; a `rows` entry
is the row's metric cell.  `nlargest(4)` is the four largest shares. -/
def calculate_market_concentration (metricPresent : Bool)
    (rows : List (Option ℚ)) : ConcentrationResult :=
  if rows.isEmpty || !metricPresent then
    { hhi := 0, top_4_concentration := 0, effective_competitors := 0,
      market_structure := "Unknown", total_firms := none }
  else if (validValues rows).isEmpty then
    { hhi := 0, top_4_concentration := 0, effective_competitors := 0,
      market_structure := "No data", total_firms := none }
  else
    let v := validValues rows
    let h := hhiOf v
    let top4 := ((List.insertionSort (· ≥ ·) (sharesOf v)).take 4).sum * 100
    let eff := if 0 < h then 1 / (h / 10000) else (v.length : ℚ)
    let ms := if h < 1500 then "Competitive"
              else if h < 2500 then "Moderately Concentrated"
              else "Highly Concentrated"
    { hhi := pyRound0 h, top_4_concentration := pyRound1 top4,
      effective_competitors := pyRound1 eff, market_structure := ms,
      total_firms := some v.length }

/-! ## Capital access index (calculation_service.py lines 16-88, 353-357) -/

/-- Result record of `calculate_capital_access_index` (the `raw_metrics`
and `normalized_metrics` sub-dicts are omitted; the methodology f-string
is abbreviated to a fixed string, its exact text is not at issue). -/
structure CapitalAccessResult where
  index_score : ℚ
  loans_per_1k_firms : ℚ
  amount_per_1k_firms : ℚ
  methodology : String

/-- Embedding of `CalculationService._min_max_normalize` (lines 353-357):
`max(0, min(1, (value - min_val) / (max_val - min_val)))`, with `0.5`
when the range is empty. -/
def min_max_normalize (value min_val max_val : ℚ) : ℚ :=
  if max_val = min_val then 1/2
  else max 0 (min 1 ((value - min_val) / (max_val - min_val)))

/-- Embedding of `CalculationService.calculate_capital_access_index`
(lines 16-77).  `sbaAmounts` is the `amount` column of the SBA frame
(`total_loans = len(sba_data)`, `total_amount = sba_data['amount'].sum()`);
the configured reference ranges are `(0, 50)` and `(0, 5000000)`.  In the
source the weights default to `amount_weight=0.6`, `count_weight=0.4`. -/
def calculate_capital_access_index (sbaAmounts : List ℚ)
    (establishments_count : ℕ) (amount_weight count_weight : ℚ) :
    CapitalAccessResult :=
  if sbaAmounts.isEmpty || (establishments_count == 0) then
    { index_score := 0, loans_per_1k_firms := 0, amount_per_1k_firms := 0,
      methodology := "Insufficient data for calculation" }
  else
    let total_loans : ℚ := (sbaAmounts.length : ℚ)
    let total_amount := sbaAmounts.sum
    let loans_per_1k := total_loans / (establishments_count : ℚ) * 1000
    let amount_per_1k := total_amount / (establishments_count : ℚ) * 1000
    let normalized_loans := min_max_normalize loans_per_1k 0 50 * 100
    let normalized_amount := min_max_normalize amount_per_1k 0 5000000 * 100
    let index_score := normalized_amount * amount_weight + normalized_loans * count_weight
    let clamped := max 0 (min 100 index_score)
    { index_score := pyRound1 clamped
      loans_per_1k_firms := pyRound1 loans_per_1k
      amount_per_1k_firms := pyRound0 amount_per_1k
      methodology := "Weighted average: amount_per_1k and count_per_1k, min-max normalized 0-100" }

/-- Modelled from the spec claim, for comparison with
`calculate_capital_access_index`: the index as the claim states it,
`100 * (w_amount * n_amount + w_count * n_loans) / (w_amount + w_count)`
over the [0,1]-normalized metrics, clamped to [0,100]. -/
def capitalIndexSpecClaim (normalized_amount normalized_loans
    amount_weight count_weight : ℚ) : ℚ :=
  max 0 (min 100
    (100 * (amount_weight * normalized_amount + count_weight * normalized_loans) /
      (amount_weight + count_weight)))

/-! ## Cache freshness (src/services/cache_manager.py) -/

/-- The `cache_duration` table (hours per data type, lines 17-24). -/
def cache_duration : List (String × ℚ) :=
  [("cbp_data", 24), ("qcew_data", 24), ("sba_data", 48),
   ("sam_data", 12), ("firm_data", 48), ("signals_data", 6)]

/-- `self.cache_duration.get(data_type, 24)` (line 56). -/
def ttlHours (data_type : String) : ℚ :=
  (cache_duration.lookup data_type).getD 24

/-- Embedding of `CacheManager.is_cache_valid` (lines 44-60).  Times are
rationals in hours; `metadataTimestamp` is `none` when the metadata file
is missing or unreadable (both return `False` in the source). -/
def is_cache_valid (metadataTimestamp : Option ℚ) (now : ℚ)
    (data_type : String) : Bool :=
  match metadataTimestamp with
  | none => false
  | some t => decide (now - t < ttlHours data_type)

/-! ## Helper lemmas -/

theorem popVar_nonneg (xs : List ℚ) : 0 ≤ popVar xs := by
  unfold popVar
  apply div_nonneg
  · apply List.sum_nonneg
    intro y hy
    obtain ⟨x, -, rfl⟩ := List.mem_map.1 hy
    positivity
  · exact_mod_cast Nat.zero_le _

theorem popStd_eq_zero_iff (xs : List ℚ) : popStd xs = 0 ↔ popVar xs = 0 := by
  unfold popStd
  rw [Real.sqrt_eq_zero (by exact_mod_cast popVar_nonneg xs)]
  exact_mod_cast Iff.rfl

theorem zscore_length (xs : List ℚ) : (zscore xs).length = xs.length := by
  unfold zscore
  split <;> simp

theorem zscore_of_degenerate (xs : List ℚ)
    (h : popVar xs = 0 ∨ xs.length < 2) :
    zscore xs = List.replicate xs.length 0 := by
  unfold zscore
  rw [if_pos h]

theorem zscore_getD (xs : List ℚ)
    (h : ¬(popVar xs = 0 ∨ xs.length < 2)) (i : ℕ) (hi : i < xs.length) :
    (zscore xs).getD i 0 =
      (((xs.getD i 0 : ℚ) : ℝ) - ((popMean xs : ℚ) : ℝ)) / popStd xs := by
  unfold zscore
  rw [if_neg h]
  have hi' : i < (xs.map (fun (x : ℚ) => ((x : ℝ) - ((popMean xs : ℚ) : ℝ)) / popStd xs)).length := by
    simpa using hi
  rw [List.getD_eq_getElem _ _ hi', List.getElem_map, List.getD_eq_getElem _ _ hi]

/-! ## Claim theorems -/

/-- C2: `zscore` on a series of length N returns a series of the same
length and order; if the population standard deviation is 0 or N < 2,
every output value is 0 (in particular never NaN or infinite, the output
being a genuine real number); otherwise output i equals
(values i − μ) / σ, with μ the population mean and σ the population
standard deviation (divide by N, not N−1). -/
theorem zscore_spec (xs : List ℚ) :
    (zscore xs).length = xs.length
    ∧ ((popStd xs = 0 ∨ xs.length < 2) → zscore xs = List.replicate xs.length 0)
    ∧ (popStd xs ≠ 0 → 2 ≤ xs.length → ∀ i, i < xs.length →
        (zscore xs).getD i 0 =
          (((xs.getD i 0 : ℚ) : ℝ) - ((popMean xs : ℚ) : ℝ)) / popStd xs) := by
  refine ⟨zscore_length xs, ?_, ?_⟩
  · intro h
    apply zscore_of_degenerate
    rcases h with h | h
    · exact Or.inl ((popStd_eq_zero_iff xs).1 h)
    · exact Or.inr h
  · intro hstd hlen i hi
    refine zscore_getD xs ?_ i hi
    push_neg
    exact ⟨fun hv => hstd ((popStd_eq_zero_iff xs).2 hv), by omega⟩

/-- C2 witness: for the series [1, 3] (μ = 2, population σ = 1) the
non-degenerate branch applies, and the entry at index 1 is
(3 − μ) / σ. -/
theorem zscore_spec_witness :
    popStd [(1:ℚ), 3] ≠ 0 ∧ 2 ≤ ([(1:ℚ), 3]).length ∧ 1 < ([(1:ℚ), 3]).length ∧
    (zscore [(1:ℚ), 3]).getD 1 0 =
      ((([(1:ℚ), 3].getD 1 0 : ℚ) : ℝ) - ((popMean [(1:ℚ), 3] : ℚ) : ℝ)) /
        popStd [(1:ℚ), 3] := by
  have hvar : popVar [(1:ℚ), 3] = 1 := by
    norm_num [popVar, popMean, List.sum_cons, List.sum_nil]
  have hstd : popStd [(1:ℚ), 3] = 1 := by
    simp only [popStd, hvar]
    norm_num [Real.sqrt_one]
  have hne : popStd [(1:ℚ), 3] ≠ 0 := by rw [hstd]; norm_num
  exact ⟨hne, by norm_num, by norm_num,
    (zscore_spec [(1:ℚ), 3]).2.2 hne (by norm_num) 1 (by norm_num)⟩

/-- C6: the normalized per-1k rate is 1000·count/exposure when the
exposure (establishment count) is positive, and exactly 0 when the
exposure is 0, for any count, zero or not; the function is total, so no
exception can arise. -/
theorem rate_zero_exposure_spec (cnt establishments : ℚ) :
    (0 < establishments → ratePer1k cnt establishments = 1000 * cnt / establishments)
    ∧ (establishments = 0 → ratePer1k cnt establishments = 0) := by
  constructor
  · intro h
    simp [ratePer1k, h]
  · intro h
    simp [ratePer1k, h]

/-- C6 witness: exposure 2 gives the 1000·count/exposure rate, and a
nonzero count of 7 over exposure 0 gives rate 0. -/
theorem rate_zero_exposure_witness :
    (0:ℚ) < 2 ∧ ratePer1k 7 2 = 1000 * 7 / 2 ∧
    ((7:ℚ) ≠ 0 ∧ ratePer1k 7 0 = 0) := by
  exact ⟨by norm_num, (rate_zero_exposure_spec 7 2).1 (by norm_num),
    by norm_num, (rate_zero_exposure_spec 7 0).2 rfl⟩

/-- C9: a cache entry is valid exactly when now − timestamp < TTL of its
data type (strict); with the 24-hour TTL of `cbp_data`, an entry written
at t0 is valid at t0 + 23h59m and invalid at t0 + 24h01m (and already at
exactly t0 + 24h); a missing metadata record is never valid. -/
theorem cache_ttl_spec (t0 now : ℚ) (data_type : String) :
    (is_cache_valid (some t0) now data_type = true ↔ now - t0 < ttlHours data_type)
    ∧ is_cache_valid none now data_type = false
    ∧ is_cache_valid (some t0) (t0 + (23 + 59/60)) "cbp_data" = true
    ∧ is_cache_valid (some t0) (t0 + (24 + 1/60)) "cbp_data" = false
    ∧ is_cache_valid (some t0) (t0 + 24) "cbp_data" = false := by
  have httl : ttlHours "cbp_data" = 24 := by
    simp [ttlHours, cache_duration, List.lookup]
  refine ⟨by simp [is_cache_valid], rfl, ?_, ?_, ?_⟩
  · simp only [is_cache_valid, httl, decide_eq_true_eq]
    norm_num
  · simp only [is_cache_valid, httl, decide_eq_false_iff_not, not_lt]
    norm_num
  · simp only [is_cache_valid, httl, decide_eq_false_iff_not, not_lt]
    norm_num

/-- C4: on input with at least one positive metric value, the market
structure is classified from hhi = Σ share² · 10000 over the positive
values, with 'Competitive' below 1500, 'Moderately Concentrated' in
[1500, 2500) and 'Highly Concentrated' from 2500 up (boundary
inclusive); the reported hhi is that quantity (rounded to an integer);
a single-entity market gives hhi 10000 'Highly Concentrated' and four
equal entities give hhi 2500 'Highly Concentrated'. -/
theorem concentration_spec (rows : List (Option ℚ))
    (hne : rows ≠ []) (hval : validValues rows ≠ []) :
    (calculate_market_concentration true rows).market_structure =
      (if hhiOf (validValues rows) < 1500 then "Competitive"
       else if hhiOf (validValues rows) < 2500 then "Moderately Concentrated"
       else "Highly Concentrated")
    ∧ (calculate_market_concentration true rows).hhi = pyRound0 (hhiOf (validValues rows))
    ∧ hhiOf (validValues rows) =
        (((validValues rows).map (fun v => v / (validValues rows).sum)).map
          (fun s => s ^ 2)).sum * 10000
    ∧ calculate_market_concentration true [some 5] =
        { hhi := 10000, top_4_concentration := 100, effective_competitors := 1,
          market_structure := "Highly Concentrated", total_firms := some 1 }
    ∧ calculate_market_concentration true [some 3, some 3, some 3, some 3] =
        { hhi := 2500, top_4_concentration := 100, effective_competitors := 4,
          market_structure := "Highly Concentrated", total_firms := some 4 } := by
  have h1 : rows.isEmpty = false := by simpa [List.isEmpty_iff] using hne
  have h2 : (validValues rows).isEmpty = false := by simpa [List.isEmpty_iff] using hval
  refine ⟨?_, ?_, rfl, ?_, ?_⟩
  · simp [calculate_market_concentration, h1, h2]
  · simp [calculate_market_concentration, h1, h2]
  · norm_num [calculate_market_concentration, validValues, sharesOf, hhiOf,
      List.filterMap, List.filter, List.insertionSort, List.orderedInsert,
      pyRound0, pyRound1, pyRoundInt, ConcentrationResult.mk.injEq]
  · norm_num [calculate_market_concentration, validValues, sharesOf, hhiOf,
      List.filterMap, List.filter, List.insertionSort, List.orderedInsert,
      pyRound0, pyRound1, pyRoundInt, ConcentrationResult.mk.injEq]

/-- C4 witness: the input [some 2, some 1, none] is nonempty with
positive values, and its reported hhi is the rounded Σ share² · 10000. -/
theorem concentration_spec_witness :
    ([some (2:ℚ), some 1, none] ≠ ([] : List (Option ℚ)))
    ∧ validValues [some (2:ℚ), some 1, none] ≠ []
    ∧ (calculate_market_concentration true [some (2:ℚ), some 1, none]).hhi =
        pyRound0 (hhiOf (validValues [some (2:ℚ), some 1, none])) := by
  have hv : validValues [some (2:ℚ), some 1, none] ≠ [] := by
    have h : validValues [some (2:ℚ), some 1, none] = [2, 1] := by
      norm_num [validValues, List.filterMap, List.filter]
    rw [h]
    exact List.cons_ne_nil _ _
  exact ⟨by simp, hv, (concentration_spec _ (by simp) hv).2.1⟩

/-- C7 counterexample: on truly empty input (no records) the code takes
the first guard (line 163-169) and reports market structure 'Unknown',
not 'No data' as the claim states (the hhi is 0 as claimed). -/
theorem concentration_empty_counterexample :
    (calculate_market_concentration true []).hhi = 0
    ∧ (calculate_market_concentration true []).market_structure = "Unknown"
    ∧ ("Unknown" : String) ≠ "No data" := by
  refine ⟨by simp [calculate_market_concentration],
    by simp [calculate_market_concentration], by decide⟩

/-- C7 amended: degenerate concentration input yields hhi 0 with a
structure distinct from 'Competitive', but split in two cases: no
records (or a missing metric column) gives 'Unknown', while records none
of which has a positive metric value give 'No data'. -/
theorem concentration_degenerate_amended (metricPresent : Bool)
    (rows : List (Option ℚ)) :
    (rows = [] ∨ metricPresent = false →
       calculate_market_concentration metricPresent rows =
         { hhi := 0, top_4_concentration := 0, effective_competitors := 0,
           market_structure := "Unknown", total_firms := none })
    ∧ (rows ≠ [] → metricPresent = true → validValues rows = [] →
       calculate_market_concentration metricPresent rows =
         { hhi := 0, top_4_concentration := 0, effective_competitors := 0,
           market_structure := "No data", total_firms := none })
    ∧ ("Unknown" : String) ≠ "Competitive"
    ∧ ("No data" : String) ≠ "Competitive" := by
  refine ⟨?_, ?_, by decide, by decide⟩
  · rintro (rfl | rfl)
    · simp [calculate_market_concentration]
    · simp [calculate_market_concentration]
  · intro hne hmp hval
    subst hmp
    have h1 : rows.isEmpty = false := by simpa [List.isEmpty_iff] using hne
    simp [calculate_market_concentration, h1, hval]

/-- C7 witness: the row list [some 0] is nonempty but has no positive
value, and is classified 'No data'. -/
theorem concentration_degenerate_amended_witness :
    (([some (0:ℚ)] : List (Option ℚ)) ≠ []) ∧
    validValues [some (0:ℚ)] = [] ∧
    (calculate_market_concentration true [some (0:ℚ)]).market_structure = "No data" := by
  have hval : validValues [some (0:ℚ)] = [] := by
    norm_num [validValues, List.filterMap, List.filter]
  refine ⟨by simp, hval, ?_⟩
  rw [(concentration_degenerate_amended true [some (0:ℚ)]).2.1 (by simp) rfl hval]

theorem optComponent_weight {name : String} {sig : Option ℚ} {weight : ℚ}
    {c : String × ℚ × ℚ} (hc : c ∈ optComponent name sig weight) :
    c.2.2 = weight := by
  cases sig with
  | none => simp [optComponent] at hc
  | some v =>
    simp [optComponent] at hc
    rw [hc]

theorem scoreComponents_weight_pos (emp rfp award formation license : Option ℚ) :
    ∀ c ∈ scoreComponents emp rfp award formation license, 0 < c.2.2 := by
  intro c hc
  unfold scoreComponents at hc
  simp only [List.mem_append] at hc
  rcases hc with ((((hc | hc) | hc) | hc) | hc) <;>
    rw [optComponent_weight hc] <;> norm_num

theorem totalWeight_pos (emp rfp award formation license : Option ℚ)
    (h2 : 2 ≤ (scoreComponents emp rfp award formation license).length) :
    0 < totalWeight (scoreComponents emp rfp award formation license) := by
  unfold totalWeight
  apply List.sum_pos
  · intro w hw
    obtain ⟨c, hc, rfl⟩ := List.mem_map.1 hw
    exact scoreComponents_weight_pos emp rfp award formation license c hc
  · intro hnil
    rw [List.map_eq_nil_iff] at hnil
    rw [hnil] at h2
    simp at h2

/-- C3 counterexample: with exactly two available signals both valued 0
(each helper can return 0, e.g. for a large employment drop or zero
recent RFPs), the run has signals_count 2 yet the reported
opportunity_score is None, refuting "with 2 or more signals available a
numeric score is produced". -/
theorem min_signal_counterexample :
    (calculate_opportunity_score (some 0) (some 0) none none none).signals_count = 2
    ∧ (calculate_opportunity_score (some 0) (some 0) none none none).opportunity_score = none := by
  constructor <;>
    norm_num [calculate_opportunity_score, scoreComponents, optComponent,
      weightedScore, totalWeight]

/-- C3 amended: with fewer than 2 signals the composite score is None
(never a fabricated default) and the methodology text states that
signals are insufficient; with 2 or more signals a numeric score is
produced whenever the weighted sum is nonzero (when it is exactly zero
the truthiness guard also reports None; see the zero-composite
theorem). -/
theorem min_signal_policy_amended (emp rfp award formation license : Option ℚ) :
    ((scoreComponents emp rfp award formation license).length < 2 →
       (calculate_opportunity_score emp rfp award formation license).opportunity_score = none
       ∧ (calculate_opportunity_score emp rfp award formation license).methodology =
           "Insufficient signals for composite score (minimum 2 required)")
    ∧ (2 ≤ (scoreComponents emp rfp award formation license).length →
       weightedScore (scoreComponents emp rfp award formation license) ≠ 0 →
       (calculate_opportunity_score emp rfp award formation license).opportunity_score =
         some (pyRound1 (weightedScore (scoreComponents emp rfp award formation license) /
           totalWeight (scoreComponents emp rfp award formation license) * 100))) := by
  constructor
  · intro h
    unfold calculate_opportunity_score
    rw [if_neg (by omega)]
    exact ⟨rfl, rfl⟩
  · intro h2 hws
    have htw := totalWeight_pos emp rfp award formation license h2
    have hs : weightedScore (scoreComponents emp rfp award formation license) /
        totalWeight (scoreComponents emp rfp award formation license) * 100 ≠ 0 :=
      mul_ne_zero (div_ne_zero hws htw.ne') (by norm_num)
    unfold calculate_opportunity_score
    rw [if_pos h2]
    simp [hs]

/-- C3 witness: with the single signal employment_growth = 50 the run
has one component and the score is None; with two signals 50 and 60 the
weighted sum is nonzero and a numeric score is produced. -/
theorem min_signal_policy_amended_witness :
    (scoreComponents (some 50) none none none none).length < 2
    ∧ (calculate_opportunity_score (some 50) none none none none).opportunity_score = none
    ∧ 2 ≤ (scoreComponents (some 50) (some 60) none none none).length
    ∧ weightedScore (scoreComponents (some 50) (some 60) none none none) ≠ 0
    ∧ (calculate_opportunity_score (some 50) (some 60) none none none).opportunity_score =
        some (pyRound1 (weightedScore (scoreComponents (some 50) (some 60) none none none) /
          totalWeight (scoreComponents (some 50) (some 60) none none none) * 100)) := by
  have hlen : (scoreComponents (some 50) none none none none).length < 2 := by
    norm_num [scoreComponents, optComponent]
  have h2 : 2 ≤ (scoreComponents (some 50) (some 60) none none none).length := by
    norm_num [scoreComponents, optComponent]
  have hws : weightedScore (scoreComponents (some 50) (some 60) none none none) ≠ 0 := by
    norm_num [scoreComponents, optComponent, weightedScore]
  exact ⟨hlen, ((min_signal_policy_amended (some 50) none none none none).1 hlen).1,
    h2, hws, (min_signal_policy_amended (some 50) (some 60) none none none).2 h2 hws⟩

/-- C10: when at least 2 signals are present and the weighted composite
evaluates to exactly 0, calculate_opportunity_score returns
opportunity_score None — the rounding guard tests the score's Python
truthiness rather than comparing to None — while signals_count still
reports the number of signals used. -/
theorem zero_composite_truthiness (emp rfp award formation license : Option ℚ)
    (h2 : 2 ≤ (scoreComponents emp rfp award formation license).length)
    (h0 : weightedScore (scoreComponents emp rfp award formation license) /
        totalWeight (scoreComponents emp rfp award formation license) * 100 = 0) :
    (calculate_opportunity_score emp rfp award formation license).opportunity_score = none
    ∧ (calculate_opportunity_score emp rfp award formation license).signals_count =
        (scoreComponents emp rfp award formation license).length := by
  unfold calculate_opportunity_score
  rw [if_pos h2]
  exact ⟨by simp [h0], rfl⟩

/-- C10 witness: employment_growth 0 and award_activity 0 give two
signals, a composite of exactly 0, and a reported score of None. -/
theorem zero_composite_truthiness_witness :
    2 ≤ (scoreComponents (some 0) none (some 0) none none).length
    ∧ weightedScore (scoreComponents (some 0) none (some 0) none none) /
        totalWeight (scoreComponents (some 0) none (some 0) none none) * 100 = 0
    ∧ (calculate_opportunity_score (some 0) none (some 0) none none).opportunity_score = none
    ∧ (calculate_opportunity_score (some 0) none (some 0) none none).signals_count = 2 := by
  have h2 : 2 ≤ (scoreComponents (some 0) none (some 0) none none).length := by
    norm_num [scoreComponents, optComponent]
  have h0 : weightedScore (scoreComponents (some 0) none (some 0) none none) /
      totalWeight (scoreComponents (some 0) none (some 0) none none) * 100 = 0 := by
    norm_num [scoreComponents, optComponent, weightedScore, totalWeight]
  have h := zero_composite_truthiness (some 0) none (some 0) none none h2 h0
  refine ⟨h2, h0, h.1, ?_⟩
  rw [h.2]
  norm_num [scoreComponents, optComponent]

theorem zip3_map_getD (f : ℝ × ℝ × ℝ → ℝ) (a b c : List ℝ) (i : ℕ)
    (ha : i < a.length) (hb : i < b.length) (hc : i < c.length) :
    ((a.zip (b.zip c)).map f).getD i 0 = f (a.getD i 0, b.getD i 0, c.getD i 0) := by
  have hbc : i < (b.zip c).length := by rw [List.length_zip]; omega
  have hz : i < (a.zip (b.zip c)).length := by rw [List.length_zip, List.length_zip]; omega
  have hm : i < ((a.zip (b.zip c)).map f).length := by rw [List.length_map]; exact hz
  rw [List.getD_eq_getElem _ _ hm, List.getElem_map, List.getElem_zip, List.getElem_zip,
    List.getD_eq_getElem _ _ ha, List.getD_eq_getElem _ _ hb, List.getD_eq_getElem _ _ hc]

/-- C1 amended: `calculate_opportunity_score` does re-weight over the
sum of the weights actually used — its composite is
weightedScore/totalWeight, scaled by 100 and passed through the
round-if-truthy guard — but the `industry_scores` demand score is the
plain weighted sum `0.30·z_apps + 0.25·z_licenses + 0.25·z_rfps` with no
division by the 0.80 total of the weights used, so with only signals A
and C varying it equals 0.3·zA + 0.25·zC, not (0.3·zA + 0.25·zC)/0.55. -/
theorem composite_weighting_amended (emp rfp award formation license : Option ℚ)
    (h2 : 2 ≤ (scoreComponents emp rfp award formation license).length)
    (w : DemandWeights) (rows : List SignalRow) (i : ℕ) (hi : i < rows.length) :
    (calculate_opportunity_score emp rfp award formation license).opportunity_score =
      (if weightedScore (scoreComponents emp rfp award formation license) /
            totalWeight (scoreComponents emp rfp award formation license) * 100 = 0
       then none
       else some (pyRound1 (weightedScore (scoreComponents emp rfp award formation license) /
           totalWeight (scoreComponents emp rfp award formation license) * 100)))
    ∧ (demandScores w rows).getD i 0 =
        (w.bfs_apps_yoy : ℝ) * (zscore (rows.map SignalRow.apps_yoy)).getD i 0
        + (w.licenses_per_1k : ℝ) *
            (zscore (rows.map (fun r => ratePer1k r.license_cnt r.establishments))).getD i 0
        + (w.rfps_per_1k : ℝ) *
            (zscore (rows.map (fun r => ratePer1k r.rfp_cnt r.establishments))).getD i 0 := by
  constructor
  · unfold calculate_opportunity_score
    rw [if_pos h2]
  · have hA : i < (zscore (rows.map SignalRow.apps_yoy)).length := by
      rw [zscore_length, List.length_map]; exact hi
    have hL : i < (zscore (rows.map (fun r => ratePer1k r.license_cnt r.establishments))).length := by
      rw [zscore_length, List.length_map]; exact hi
    have hR : i < (zscore (rows.map (fun r => ratePer1k r.rfp_cnt r.establishments))).length := by
      rw [zscore_length, List.length_map]; exact hi
    unfold demandScores
    exact zip3_map_getD _ _ _ _ i hA hL hR

/-- C1 witness: with signals employment_growth 50 and rfp_activity 60
the opportunity composite is the 0.55-total re-weighted average, and on
a one-row frame the demand score at index 0 is the plain weighted sum of
the z-columns. -/
theorem composite_weighting_amended_witness :
    2 ≤ (scoreComponents (some 50) (some 60) none none none).length
    ∧ (0:ℕ) < ([⟨1000, 0, 0, 0⟩] : List SignalRow).length
    ∧ (calculate_opportunity_score (some 50) (some 60) none none none).opportunity_score =
        (if weightedScore (scoreComponents (some 50) (some 60) none none none) /
              totalWeight (scoreComponents (some 50) (some 60) none none none) * 100 = 0
         then none
         else some (pyRound1 (weightedScore (scoreComponents (some 50) (some 60) none none none) /
             totalWeight (scoreComponents (some 50) (some 60) none none none) * 100)))
    ∧ (demandScores defaultDemandWeights [⟨1000, 0, 0, 0⟩]).getD 0 0 =
        (defaultDemandWeights.bfs_apps_yoy : ℝ) *
            (zscore (([⟨1000, 0, 0, 0⟩] : List SignalRow).map SignalRow.apps_yoy)).getD 0 0
        + (defaultDemandWeights.licenses_per_1k : ℝ) *
            (zscore (([⟨1000, 0, 0, 0⟩] : List SignalRow).map
              (fun r => ratePer1k r.license_cnt r.establishments))).getD 0 0
        + (defaultDemandWeights.rfps_per_1k : ℝ) *
            (zscore (([⟨1000, 0, 0, 0⟩] : List SignalRow).map
              (fun r => ratePer1k r.rfp_cnt r.establishments))).getD 0 0 := by
  have h2 : 2 ≤ (scoreComponents (some 50) (some 60) none none none).length := by
    norm_num [scoreComponents, optComponent]
  have h := composite_weighting_amended (some 50) (some 60) none none none h2
    defaultDemandWeights [⟨1000, 0, 0, 0⟩] 0 (by norm_num)
  exact ⟨h2, by norm_num, h.1, h.2⟩

/-- C1 counterexample: on the two-row frame with apps_yoy column [0, 2]
and zero license/RFP signals, the code's demand score at row 1 is
0.30·1 = 0.3 (zA = [−1, 1], zL = zR = [0, 0]), while the claimed
re-weighted composite Σ(w·z)/Σ(w) = 0.3/0.8 is 0.375: the scoring run
does not divide by the sum of the weights used. -/
theorem demand_reweight_counterexample :
    (demandScores defaultDemandWeights
        [⟨1000, 0, 0, 0⟩, ⟨1000, 2, 0, 0⟩]).getD 1 0 = 3/10
    ∧ (demandScoresSpecClaim defaultDemandWeights
        [⟨1000, 0, 0, 0⟩, ⟨1000, 2, 0, 0⟩]).getD 1 0 = 3/8
    ∧ (demandScores defaultDemandWeights
        [⟨1000, 0, 0, 0⟩, ⟨1000, 2, 0, 0⟩]).getD 1 0 ≠
      (demandScoresSpecClaim defaultDemandWeights
        [⟨1000, 0, 0, 0⟩, ⟨1000, 2, 0, 0⟩]).getD 1 0 := by
  have hrate : ratePer1k 0 1000 = 0 := by norm_num [ratePer1k]
  have hA : ([⟨1000, 0, 0, 0⟩, ⟨1000, 2, 0, 0⟩] : List SignalRow).map
      SignalRow.apps_yoy = [0, 2] := rfl
  have hL : ([⟨1000, 0, 0, 0⟩, ⟨1000, 2, 0, 0⟩] : List SignalRow).map
      (fun r => ratePer1k r.license_cnt r.establishments) = [0, 0] := by
    simp [hrate]
  have hR : ([⟨1000, 0, 0, 0⟩, ⟨1000, 2, 0, 0⟩] : List SignalRow).map
      (fun r => ratePer1k r.rfp_cnt r.establishments) = [0, 0] := by
    simp [hrate]
  have hv2 : popVar [(0:ℚ), 2] = 1 := by
    norm_num [popVar, popMean, List.sum_cons, List.sum_nil]
  have hm2 : popMean [(0:ℚ), 2] = 1 := by
    norm_num [popMean, List.sum_cons, List.sum_nil]
  have hs2 : popStd [(0:ℚ), 2] = 1 := by
    simp only [popStd, hv2]
    norm_num [Real.sqrt_one]
  have hz2 : zscore [(0:ℚ), 2] = [(-1 : ℝ), 1] := by
    unfold zscore
    rw [if_neg (by rw [hv2]; norm_num)]
    rw [hm2, hs2]
    norm_num
  have hv0 : popVar [(0:ℚ), 0] = 0 := by
    norm_num [popVar, popMean, List.sum_cons, List.sum_nil]
  have hz0 : zscore [(0:ℚ), 0] = [(0 : ℝ), 0] := by
    rw [zscore_of_degenerate _ (Or.inl hv0)]
    rfl
  have hcode : demandScores defaultDemandWeights
      [⟨1000, 0, 0, 0⟩, ⟨1000, 2, 0, 0⟩] = [-(3:ℝ)/10, 3/10] := by
    simp only [demandScores, hA, hL, hR, hz2, hz0, defaultDemandWeights,
      List.zip_cons_cons, List.zip_nil_right, List.map_cons, List.map_nil]
    norm_num
  have hclaim : demandScoresSpecClaim defaultDemandWeights
      [⟨1000, 0, 0, 0⟩, ⟨1000, 2, 0, 0⟩] = [-(3:ℝ)/8, 3/8] := by
    simp only [demandScoresSpecClaim, hA, hL, hR, hz2, hz0, defaultDemandWeights,
      List.zip_cons_cons, List.zip_nil_right, List.map_cons, List.map_nil]
    norm_num
  rw [hcode, hclaim]
  norm_num

/-- C5: evaluating the year-over-year machinery at previous = 0.  The
`DataUtils.calculate_growth_rate` path conforms to the claim (previous 0
gives None, previous 5 and current 6 gives the (current−previous)/previous
rate in percent), but the BFS apps_yoy signal built with pandas
`pct_change` yields +inf for applications going 0 → 5, because float
division of 5 by 0 is +inf and `fillna(0.0)` replaces only NaN: the
signal is an infinite value, not a 0 contribution. -/
theorem yoy_zero_previous_divergence :
    appsYoySignal [0, 5] = FVal.inf
    ∧ FVal.inf ≠ FVal.val 0
    ∧ appsYoySignal [5, 6] = FVal.val (1/5)
    ∧ calculate_growth_rate (some 5) (some 0) = none
    ∧ calculate_growth_rate (some 6) (some 5) = some 20 := by
  refine ⟨?_, by simp, ?_, ?_, ?_⟩
  · norm_num [appsYoySignal, pctChange, pctChangeAux, pctChangeStep, fillna0]
  · norm_num [appsYoySignal, pctChange, pctChangeAux, pctChangeStep, fillna0]
  · norm_num [calculate_growth_rate]
  · norm_num [calculate_growth_rate, pyRound1, pyRoundInt]

/-- C8 counterexample: with weights 0.3 and 0.3 (sum 0.6) and raw
metrics above both reference maxima (both normalize to 1), the code's
index is 100·0.3 + 100·0.3 = 60, while the claimed formula
100·Σ(w·n)/Σ(w) gives 100. -/
theorem capital_index_counterexample :
    (calculate_capital_access_index [10000000] 1 (3/10) (3/10)).index_score = 60
    ∧ capitalIndexSpecClaim (min_max_normalize ((10000000:ℚ) / 1 * 1000) 0 5000000)
        (min_max_normalize ((1:ℚ) / 1 * 1000) 0 50) (3/10) (3/10) = 100
    ∧ (60:ℚ) ≠ 100 := by
  refine ⟨?_, ?_, by norm_num⟩
  · norm_num [calculate_capital_access_index, min_max_normalize, pyRound1,
      pyRoundInt, List.sum_cons, List.sum_nil, min_def, max_def]
  · norm_num [capitalIndexSpecClaim, min_max_normalize, min_def, max_def]

/-- C8 amended: each raw metric is min-max normalized against its
reference range and clamped to [0,1] (below the minimum gives 0, above
the maximum gives 1, and the result always lies in [0,1]); the index is
clamp to [0,100] of `n_amount·100·w_amount + n_loans·100·w_count`,
rounded to one decimal — i.e. 100·Σ(w·n) with NO division by Σ(w) — and
it coincides with the claimed 100·Σ(w·n)/Σ(w) exactly when the weights
sum to 1, as the source's default weights 0.6 and 0.4 do. -/
theorem capital_index_amended (v lo hi : ℚ) (hlh : lo < hi)
    (sbaAmounts : List ℚ) (establishments_count : ℕ) (amount_weight count_weight : ℚ)
    (hne : sbaAmounts ≠ []) (he : establishments_count ≠ 0) :
    (v ≤ lo → min_max_normalize v lo hi = 0)
    ∧ (hi ≤ v → min_max_normalize v lo hi = 1)
    ∧ (0 ≤ min_max_normalize v lo hi ∧ min_max_normalize v lo hi ≤ 1)
    ∧ (calculate_capital_access_index sbaAmounts establishments_count
          amount_weight count_weight).index_score =
        pyRound1 (max 0 (min 100
          (min_max_normalize (sbaAmounts.sum / (establishments_count : ℚ) * 1000) 0 5000000 * 100 *
              amount_weight +
            min_max_normalize ((sbaAmounts.length : ℚ) / (establishments_count : ℚ) * 1000) 0 50 * 100 *
              count_weight)))
    ∧ (amount_weight + count_weight = 1 →
        max 0 (min 100
          (min_max_normalize (sbaAmounts.sum / (establishments_count : ℚ) * 1000) 0 5000000 * 100 *
              amount_weight +
            min_max_normalize ((sbaAmounts.length : ℚ) / (establishments_count : ℚ) * 1000) 0 50 * 100 *
              count_weight)) =
        capitalIndexSpecClaim
          (min_max_normalize (sbaAmounts.sum / (establishments_count : ℚ) * 1000) 0 5000000)
          (min_max_normalize ((sbaAmounts.length : ℚ) / (establishments_count : ℚ) * 1000) 0 50)
          amount_weight count_weight) := by
  refine ⟨?_, ?_, ?_, ?_, ?_⟩
  · intro hv
    simp only [min_max_normalize, if_neg (ne_of_gt hlh)]
    have hx : (v - lo) / (hi - lo) ≤ 0 :=
      div_nonpos_of_nonpos_of_nonneg (by linarith) (by linarith)
    rw [max_eq_left (le_trans (min_le_right _ _) hx)]
  · intro hv
    simp only [min_max_normalize, if_neg (ne_of_gt hlh)]
    have hx : 1 ≤ (v - lo) / (hi - lo) := (one_le_div (by linarith)).2 (by linarith)
    rw [min_eq_left hx]
    norm_num
  · constructor
    · unfold min_max_normalize
      split
      · norm_num
      · exact le_max_left 0 _
    · unfold min_max_normalize
      split
      · norm_num
      · exact max_le (by norm_num) (min_le_left _ _)
  · have hne' : sbaAmounts.isEmpty = false := by simpa [List.isEmpty_iff] using hne
    have he' : (establishments_count == 0) = false := by simp [he]
    simp only [calculate_capital_access_index, hne', he', Bool.or_self, if_false]
    rfl
  · intro hw
    unfold capitalIndexSpecClaim
    rw [hw, div_one]
    ring_nf

/-- C8 witness: a raw value −5 below the range [0, 50] normalizes to 0,
and for one SBA loan of 100 over one establishment with the default 0.6
and 0.4 weights the index is the clamped, rounded weighted blend. -/
theorem capital_index_amended_witness :
    (0:ℚ) < 50
    ∧ ([(100:ℚ)] ≠ [])
    ∧ ((1:ℕ) ≠ 0)
    ∧ ((-5:ℚ) ≤ 0)
    ∧ min_max_normalize (-5) 0 50 = 0
    ∧ (calculate_capital_access_index [(100:ℚ)] 1 (3/5) (2/5)).index_score =
        pyRound1 (max 0 (min 100
          (min_max_normalize (([(100:ℚ)].sum) / ((1:ℕ) : ℚ) * 1000) 0 5000000 * 100 * (3/5) +
            min_max_normalize ((([(100:ℚ)].length : ℚ)) / ((1:ℕ) : ℚ) * 1000) 0 50 * 100 * (2/5)))) := by
  have h := capital_index_amended (-5) 0 50 (by norm_num) [(100:ℚ)] 1 (3/5) (2/5)
    (by simp) (by norm_num)
  exact ⟨by norm_num, by simp, by norm_num, by norm_num, h.1 (by norm_num), h.2.2.2.1⟩

end AdvisorDemand
